import Mathlib

/-
Verification of the sharp-gpu GPU resource / pipeline execution engine.

The definitions below are a shallow embedding of the TypeScript sources:
  * src/gl/texture.ts   — GLTexture (update / resize and the GL call trace)
  * src/gl/fbo.ts       — GLFramebuffer (resize delegation, scoped use)
  * src/types.ts        — GLProgram.applyUniforms / writeUniform(Array)
  * src/programs.ts     — the COLOR program definition and its blend state
  * src/operations/*.ts — Copy / Blur / Linear operations
  * SharpGPU            — the ping-pong render loop and the linear conveniences
  * src/utils/size.ts   — computeSize
  * src/utils/vector.ts — toVec4

JavaScript numbers are modelled as rationals (ℚ); floating-point rounding,
NaN and Infinity are outside the model.  GPU side effects are modelled as an
explicit trace of issued GL calls, and thrown exceptions as `Except`.
-/

/-- Errors thrown by the engine (src throws `Error` with a message; we give
each distinct throw site a constructor). -/
inductive GLError where
  | invalidDimension
  | missingSource
  | unsupportedUniform
deriving DecidableEq, Repr

/-- RGBA value, as used for colors and vec4 uniforms (utils/vector.ts `Vec4`). -/
structure Vec4 where
  x : ℚ
  y : ℚ
  z : ℚ
  w : ℚ
deriving DecidableEq, Repr

/- ----------------------------------------------------------------- -/
/- Resource layer: src/gl/texture.ts                                  -/
/- ----------------------------------------------------------------- -/

/-- `GLTextureFilter` from src/gl/texture.ts. -/
inductive GLTextureFilter where
  | nearest
  | linear
deriving DecidableEq, Repr

/-- `GLTextureWrap` from src/gl/texture.ts (`repeat` is spelt `repeated`). -/
inductive GLTextureWrap where
  | clamp
  | repeated
  | mirror
deriving DecidableEq, Repr

/-- `GLTextureFormat` from src/gl/texture.ts. -/
inductive GLTextureFormat where
  | rgba
  | rgb
  | alpha
  | luminance
  | luminanceAlpha
deriving DecidableEq, Repr

/-- `GLTextureType` from src/gl/texture.ts (only `"uint8"`). -/
inductive GLTextureType where
  | uint8
deriving DecidableEq, Repr

/-- `GLTextureSource = TexImageSource | ArrayBufferView | null`.
`image` stands for a decoded image-like source (not an ArrayBufferView),
`view` for a raw byte buffer. -/
inductive GLTextureSource where
  | null
  | image (width height : ℚ) (pixels : List ℕ)
  | view (bytes : List ℕ)
deriving DecidableEq, Repr

/-- The WebGL enum constants the texture code maps its parameters onto. -/
inductive GLenum where
  | NEAREST
  | LINEAR
  | CLAMP_TO_EDGE
  | REPEAT
  | MIRRORED_REPEAT
  | RGBA
  | RGB
  | ALPHA
  | LUMINANCE
  | LUMINANCE_ALPHA
  | UNSIGNED_BYTE
  | TEXTURE_MIN_FILTER
  | TEXTURE_MAG_FILTER
  | TEXTURE_WRAP_S
  | TEXTURE_WRAP_T
deriving DecidableEq, Repr

/-- GL calls issued by `GLTexture.update`.  `bindTexturePrevious` /
`pixelStoreiFlipYPrevious` are the `finally`-block restores of the values
read before the call (the source restores them on every exit path). -/
inductive GLCall where
  | bindTexture (handle : ℕ)
  | texParameteri (pname : GLenum) (value : GLenum)
  | pixelStoreiFlipY (value : ℕ)
  | texImage2DImage (internalFormat : GLenum) (format : GLenum) (type : GLenum)
      (source : GLTextureSource)
  | texImage2DData (internalFormat : GLenum) (width height : ℚ) (format : GLenum)
      (type : GLenum) (data : GLTextureSource)
  | pixelStoreiFlipYPrevious
  | bindTexturePrevious
deriving DecidableEq, Repr

/-- An upload call: either `texImage2D` overload reallocates the storage. -/
def GLCall.isUpload : GLCall → Bool
  | .texImage2DImage .. => true
  | .texImage2DData .. => true
  | _ => false

/-- Number of storage uploads (`texImage2D` calls) in a trace. -/
def countUploads (calls : List GLCall) : ℕ :=
  calls.countP GLCall.isUpload

/-- `GLTextureParams` (all fields optional, as in the `Partial` update type).
`data := some .null` models an explicit `data: null` in the literal;
`data := none` models an absent field — JavaScript `??` cannot tell these
apart, see `jsOrElseData`. -/
structure GLTextureParams where
  width : Option ℚ := none
  height : Option ℚ := none
  data : Option GLTextureSource := none
  format : Option GLTextureFormat := none
  type : Option GLTextureType := none
  wrapS : Option GLTextureWrap := none
  wrapT : Option GLTextureWrap := none
  minFilter : Option GLTextureFilter := none
  magFilter : Option GLTextureFilter := none
  flipY : Option Bool := none
deriving DecidableEq, Repr

/-- The class `GLTexture` of src/gl/texture.ts: its mutable attribute state
(the GPU `handle` is an opaque id). -/
structure GLTexture where
  handle : ℕ
  width : ℚ
  height : ℚ
  format : GLTextureFormat
  type : GLTextureType
  wrapS : GLTextureWrap
  wrapT : GLTextureWrap
  minFilter : GLTextureFilter
  magFilter : GLTextureFilter
  flipY : Bool
  data : GLTextureSource
deriving DecidableEq, Repr

/-- `mapFilter` from src/gl/texture.ts. -/
def mapFilter : GLTextureFilter → GLenum
  | .nearest => .NEAREST
  | .linear => .LINEAR

/-- `mapWrap` from src/gl/texture.ts. -/
def mapWrap : GLTextureWrap → GLenum
  | .repeated => .REPEAT
  | .mirror => .MIRRORED_REPEAT
  | .clamp => .CLAMP_TO_EDGE

/-- `mapFormat` from src/gl/texture.ts. -/
def mapFormat : GLTextureFormat → GLenum
  | .rgb => .RGB
  | .alpha => .ALPHA
  | .luminance => .LUMINANCE
  | .luminanceAlpha => .LUMINANCE_ALPHA
  | .rgba => .RGBA

/-- `mapType` from src/gl/texture.ts (`"uint8"` is the only inhabitant, so
the unsupported-type throw is unreachable). -/
def mapType : GLTextureType → GLenum
  | .uint8 => .UNSIGNED_BYTE

/-- The `texImage2D` call issued by `GLTexture.update`: the image path when
`data && !ArrayBuffer.isView(data)` (i.e. `data` is an image-like source),
otherwise the raw-data path with explicit dimensions (`data ?? null`). -/
def uploadCall (format : GLenum) (width height : ℚ) (type : GLenum) :
    GLTextureSource → GLCall
  | .image w h px => .texImage2DImage format format type (.image w h px)
  | d => .texImage2DData format width height format type d

/-- JavaScript `a ?? b` on a `GLTextureSource`-valued expression: `??` falls
through on `null` as well as `undefined`, so an explicit `data: null`
(`some .null`) behaves exactly like an absent field.  This models the line
`const data = params.data ?? this.data ?? null;` of `GLTexture.update`. -/
def jsOrElseData : Option GLTextureSource → GLTextureSource → GLTextureSource
  | none, b => b
  | some .null, b => b
  | some s, _ => s

/-- `GLTexture.update` from src/gl/texture.ts: merges the partial params,
throws on non-positive dimensions, binds the texture, sets filter/wrap/flip
parameters, uploads via the image path (`data && !ArrayBuffer.isView(data)`)
or the raw-data path, and restores the previous unpack flag and binding.
Returns the updated attribute state and the trace of GL calls issued. -/
def GLTexture.update (t : GLTexture) (params : GLTextureParams) :
    Except GLError (GLTexture × List GLCall) :=
  let width := params.width.getD t.width
  let height := params.height.getD t.height
  if width ≤ 0 ∨ height ≤ 0 then
    .error .invalidDimension
  else
    let flipY := params.flipY.getD t.flipY
    let minFilterParam := params.minFilter.getD t.minFilter
    let magFilterParam := params.magFilter.getD t.magFilter
    let wrapSParam := params.wrapS.getD t.wrapS
    let wrapTParam := params.wrapT.getD t.wrapT
    let formatParam := params.format.getD t.format
    let typeParam := params.type.getD t.type
    let data := jsOrElseData params.data t.data
    let minFilter := mapFilter minFilterParam
    let magFilter := mapFilter magFilterParam
    let wrapS := mapWrap wrapSParam
    let wrapT := mapWrap wrapTParam
    let format := mapFormat formatParam
    let type := mapType typeParam
    let upload := uploadCall format width height type data
    let calls : List GLCall :=
      [.bindTexture t.handle,
       .texParameteri .TEXTURE_MIN_FILTER minFilter,
       .texParameteri .TEXTURE_MAG_FILTER magFilter,
       .texParameteri .TEXTURE_WRAP_S wrapS,
       .texParameteri .TEXTURE_WRAP_T wrapT,
       .pixelStoreiFlipY (if flipY then 1 else 0),
       upload,
       .pixelStoreiFlipYPrevious,
       .bindTexturePrevious]
    .ok ({ t with
            width := width, height := height,
            format := formatParam, type := typeParam,
            wrapS := wrapSParam, wrapT := wrapTParam,
            minFilter := minFilterParam, magFilter := magFilterParam,
            flipY := flipY, data := data },
         calls)

/-- `GLTexture.resize` from src/gl/texture.ts: throws on non-positive
dimensions, sets the dimensions, then calls `update` with the new
dimensions and `data: null`.  (There is no early return for unchanged
dimensions in this file.) -/
def GLTexture.resize (t : GLTexture) (width height : ℚ) :
    Except GLError (GLTexture × List GLCall) :=
  if width ≤ 0 ∨ height ≤ 0 then
    .error .invalidDimension
  else
    let t' := { t with width := width, height := height }
    t'.update { width := some width, height := some height, data := some .null }

/- ----------------------------------------------------------------- -/
/- Resource layer: src/gl/fbo.ts                                      -/
/- ----------------------------------------------------------------- -/

/-- `Size` from src/utils/size.ts. -/
structure Size where
  width : ℚ
  height : ℚ
deriving DecidableEq, Repr

/-- The class `GLFramebuffer` of src/gl/fbo.ts (GPU `handle` opaque). -/
structure GLFramebuffer where
  handle : ℕ
  texture : GLTexture
  ownsTexture : Bool
deriving DecidableEq, Repr

/-- `GLFramebuffer.resize` from src/gl/fbo.ts: delegates to the attached
texture's resize. -/
def GLFramebuffer.resize (fb : GLFramebuffer) (size : Size) :
    Except GLError (GLFramebuffer × List GLCall) :=
  match fb.texture.resize size.width size.height with
  | .error e => .error e
  | .ok (t, calls) => .ok ({ fb with texture := t }, calls)

/-- Projection: the resource state after a resize (none if it threw). -/
def stateAfter {α : Type} (r : Except GLError (α × List GLCall)) : Option α :=
  r.toOption.map (·.1)

/-- Projection: uploads issued by a resize (0 if it threw before any call). -/
def uploadsIssued {α : Type} (r : Except GLError (α × List GLCall)) : ℕ :=
  match r with
  | .ok (_, calls) => countUploads calls
  | .error _ => 0
/- Scoped framebuffer binding: `GLFramebuffer.use` of src/gl/fbo.ts   -/
/- ----------------------------------------------------------------- -/

/-- The `gl.viewport(x, y, width, height)` state. -/
structure GLViewport where
  x : ℚ
  y : ℚ
  width : ℚ
  height : ℚ
deriving DecidableEq, Repr

/-- The global WebGL binding state touched by `GLFramebuffer.use`:
`FRAMEBUFFER_BINDING` (none = default surface) and the viewport, plus the
draw work issued so far (which `use` must not disturb). -/
structure GLState where
  framebufferBinding : Option ℕ
  viewport : GLViewport
  issued : List ℕ
deriving DecidableEq, Repr

/-- The state as seen by the callback of `GLFramebuffer.use`: the
framebuffer is bound and the viewport is set to the attachment size
(`this.size` = the attached texture's width/height). -/
def GLFramebuffer.enter (fb : GLFramebuffer) (st : GLState) : GLState :=
  { st with
      framebufferBinding := some fb.handle,
      viewport := ⟨0, 0, fb.texture.width, fb.texture.height⟩ }

/-- `GLFramebuffer.use` from src/gl/fbo.ts: reads the previous
`FRAMEBUFFER_BINDING` and viewport, binds this framebuffer, sets the
viewport to the attachment size, runs the callback, and in a `finally`
block rebinds the previous framebuffer and restores the previous viewport.
The callback returns its final state together with `some e` if it threw
(the `finally` restore runs on that path too, and the exception is
re-raised to the caller). -/
def GLFramebuffer.use (fb : GLFramebuffer) (st : GLState)
    (fn : GLState → GLState × Option GLError) : GLState × Option GLError :=
  let previous := st.framebufferBinding
  let previousViewport := st.viewport
  let result := fn (fb.enter st)
  ({ result.1 with framebufferBinding := previous, viewport := previousViewport },
   result.2)

/- ----------------------------------------------------------------- -/
/- Concrete resource-layer inputs used by witnesses/counterexamples   -/
/- ----------------------------------------------------------------- -/

/-- A 1×1 texture holding a raw byte payload (`ArrayBufferView`). -/
def viewTex : GLTexture :=
  { handle := 0, width := 1, height := 1, format := .rgba, type := .uint8,
    wrapS := .clamp, wrapT := .clamp, minFilter := .linear, magFilter := .linear,
    flipY := false, data := .view [7] }

/-- A 2×2 texture with no pixel source, as allocated for a framebuffer. -/
def nullTex : GLTexture :=
  { handle := 1, width := 2, height := 2, format := .rgba, type := .uint8,
    wrapS := .clamp, wrapT := .clamp, minFilter := .linear, magFilter := .linear,
    flipY := false, data := .null }

/-- A framebuffer owning `nullTex` as its color attachment. -/
def nullFb : GLFramebuffer :=
  { handle := 5, texture := nullTex, ownsTexture := true }

/- ----------------------------------------------------------------- -/
/- Pipeline engine: SharpGPU.render and the concrete operations       -/
/- ----------------------------------------------------------------- -/

/-- Componentwise product of two vec4s. -/
def vmul (a b : Vec4) : Vec4 :=
  ⟨a.x * b.x, a.y * b.y, a.z * b.z, a.w * b.w⟩

/-- Componentwise sum of two vec4s. -/
def vadd (a b : Vec4) : Vec4 :=
  ⟨a.x + b.x, a.y + b.y, a.z + b.z, a.w + b.w⟩

/-- GLSL `clamp(x, 0.0, 1.0)`. -/
def clamp01 (x : ℚ) : ℚ :=
  min (max x 0) 1

/-- The image held by a framebuffer attachment or source texture.  Draws
are modelled denotationally: `blank` is freshly reallocated storage (a
null-data `texImage2D`, zero-filled), `source id` the content of an
external source texture, and the other constructors record what the Copy,
Blur and Linear fragment shaders produced from their input (their pixel
math is abstracted; Copy reproduces its input unchanged). -/
inductive PContent where
  | blank
  | source (id : ℕ)
  | blurred (radius dx dy : ℚ) (src : PContent)
  | linearMapped (multiply add : Vec4) (src : PContent)
deriving DecidableEq, Repr

/-- The GPU-side storage of a texture in the pipeline model. -/
structure PTexture where
  width : ℚ
  height : ℚ
  content : PContent
deriving DecidableEq, Repr

/-- A ping-pong framebuffer: one owned color attachment. -/
structure PFramebuffer where
  texture : PTexture
deriving DecidableEq, Repr

/-- A draw command issued against a render target. -/
inductive PDraw where
  | copyDraw (content : PContent)
  | blurDraw (radius dx dy : ℚ)
  | linearDraw (multiply add : Vec4)
deriving DecidableEq, Repr

/-- The concrete operations of the claims: `CopyOperation` (holds its own
captured source texture, draws it into the target), `BlurOperation`
(operations/blur.ts) and `LinearOperation` (operations/linear.ts). -/
inductive POperation where
  | copy (source : PTexture)
  | blur (radius dx dy : ℚ)
  | linear (multiply add : Vec4)
deriving DecidableEq, Repr

/-- `run(ctx)` of each operation, given `ctx.source` and `ctx.target`;
returns the updated target and the draws issued inside `target.use`.
`BlurOperation.run` returns before anything else when `this.radius === 0`;
otherwise it (and `LinearOperation.getProps`) throws when `ctx.source` is
missing, then draws with its program. -/
def POperation.run : POperation → Option PTexture → PFramebuffer →
    Except GLError (PFramebuffer × List PDraw)
  | .copy s, _, target =>
      .ok (⟨⟨target.texture.width, target.texture.height, s.content⟩⟩,
           [.copyDraw s.content])
  | .blur radius dx dy, sourceOpt, target =>
      if radius = 0 then
        .ok (target, [])
      else
        match sourceOpt with
        | none => .error .missingSource
        | some s =>
            .ok (⟨⟨target.texture.width, target.texture.height,
                   .blurred radius dx dy s.content⟩⟩,
                 [.blurDraw radius dx dy])
  | .linear multiply add, sourceOpt, target =>
      match sourceOpt with
      | none => .error .missingSource
      | some s =>
          .ok (⟨⟨target.texture.width, target.texture.height,
                 .linearMapped multiply add s.content⟩⟩,
               [.linearDraw multiply add])

/-- `dst.texture.resize(w, h)` for a ping-pong attachment: the attachment
textures are created with `data: null`, so per `GLTexture.resize` /
`GLTexture.update` the `texImage2D` call reallocates the storage with a
null payload (zero-filled, i.e. `blank`) at the new dimensions — there is
no early return for unchanged dimensions. -/
def PFramebuffer.resizeStorage (_fb : PFramebuffer) (width height : ℚ) :
    Except GLError PFramebuffer :=
  if width ≤ 0 ∨ height ≤ 0 then .error .invalidDimension
  else .ok ⟨⟨width, height, .blank⟩⟩

/-- The operation loop of `SharpGPU.render`: run the operation with
`source = src.texture, target = dst`, swap the two framebuffers
(`[src, dst] = [dst, src]`), then resize the new `dst` to the new `src`'s
size.  Returns the final `src` and `dst` and the concatenated draws. -/
def renderLoop : List POperation → PFramebuffer → PFramebuffer →
    Except GLError (PFramebuffer × PFramebuffer × List PDraw)
  | [], src, dst => .ok (src, dst, [])
  | op :: rest, src, dst => do
      let (dst', calls) ← op.run (some src.texture) dst
      let src2 := dst'
      let dst2 := src
      let dst3 ← dst2.resizeStorage src2.texture.width src2.texture.height
      let (sf, df, more) ← renderLoop rest src2 dst3
      .ok (sf, df, calls ++ more)

/-- `SharpGPU.render`: allocates the two ping-pong framebuffers via
`renderer.framebuffer()` (a fresh attachment at canvas size with no pixel
data, i.e. blank storage), runs the operation loop, then resizes the canvas
to the final `src` size and draws `src.texture` to the presentation surface
with the COPY program.  Returns the presented texture and the draw trace. -/
def SharpGPU.render (ops : List POperation) (canvasWidth canvasHeight : ℚ) :
    Except GLError (PTexture × List PDraw) := do
  let src : PFramebuffer := ⟨⟨canvasWidth, canvasHeight, .blank⟩⟩
  let dst : PFramebuffer := ⟨⟨canvasWidth, canvasHeight, .blank⟩⟩
  let (sf, _, calls) ← renderLoop ops src dst
  .ok (sf.texture, calls ++ [.copyDraw sf.texture.content])

/-- A concrete 2×2 source texture with non-blank content. -/
def srcTex : PTexture := ⟨2, 2, .source 0⟩
/- Program uniforms: GLProgram.applyUniforms of src/types.ts          -/
/- ----------------------------------------------------------------- -/

/-- `GLUniformValue`: number, boolean, number array / Float32Array
(`floats`), Int32Array (`ints`), or a bound texture. -/
inductive GLUniformValue where
  | num (x : ℚ)
  | boolean (b : Bool)
  | floats (xs : List ℚ)
  | ints (xs : List ℤ)
  | texture (t : GLTexture)

/-- A resolved uniform as stored by the program: name, location, and the
value — static or computed from props (a static value is the constant
function, matching `typeof value === "function" ? value(props) : value`). -/
structure GLProgramUniform (Props : Type) where
  name : String
  location : ℕ
  value : Props → GLUniformValue

/-- GL calls issued while applying uniforms.  `uniformFv`/`uniformIv`
carry the vector arity (the source's `uniform1fv` … `uniform4iv`), and
`uniformMatrixFv` the matrix dimension (`uniformMatrix3fv` /
`uniformMatrix4fv`). -/
inductive GLUniformCall where
  | activeTexture (unit : ℕ)
  | bindTexture (handle : ℕ)
  | uniform1i (location : ℕ) (n : ℤ)
  | uniform1f (location : ℕ) (x : ℚ)
  | uniformFv (arity : ℕ) (location : ℕ) (xs : List ℚ)
  | uniformIv (arity : ℕ) (location : ℕ) (xs : List ℤ)
  | uniformMatrixFv (dim : ℕ) (location : ℕ) (xs : List ℚ)
deriving DecidableEq, Repr

/-- `GLProgram.writeUniformArray` from src/types.ts: dispatch on the array
length — int arrays of length 1–4, float arrays of length 1–4, and float
arrays of length 9/16 as matrices; anything else throws. -/
def writeUniformArray (location : ℕ) (value : GLUniformValue) :
    Except GLError (List GLUniformCall) :=
  match value with
  | .ints xs =>
      match xs.length with
      | 1 => .ok [.uniformIv 1 location xs]
      | 2 => .ok [.uniformIv 2 location xs]
      | 3 => .ok [.uniformIv 3 location xs]
      | 4 => .ok [.uniformIv 4 location xs]
      | _ => .error .unsupportedUniform
  | .floats xs =>
      match xs.length with
      | 1 => .ok [.uniformFv 1 location xs]
      | 2 => .ok [.uniformFv 2 location xs]
      | 3 => .ok [.uniformFv 3 location xs]
      | 4 => .ok [.uniformFv 4 location xs]
      | 9 => .ok [.uniformMatrixFv 3 location xs]
      | 16 => .ok [.uniformMatrixFv 4 location xs]
      | _ => .error .unsupportedUniform
  | _ => .error .unsupportedUniform

/-- `GLProgram.writeUniform` from src/types.ts: a provided texture unit is
written as `uniform1i`; otherwise numbers as `uniform1f`, booleans as
`uniform1i 1/0`, arrays via `writeUniformArray`; a texture reaching this
point would hit the final unsupported-value throw. -/
def writeUniform (location : ℕ) (value : GLUniformValue)
    (textureUnit : Option ℕ) : Except GLError (List GLUniformCall) :=
  match textureUnit with
  | some unit => .ok [.uniform1i location unit]
  | none =>
      match value with
      | .num x => .ok [.uniform1f location x]
      | .boolean b => .ok [.uniform1i location (if b then 1 else 0)]
      | .floats xs => writeUniformArray location (.floats xs)
      | .ints xs => writeUniformArray location (.ints xs)
      | .texture _ => .error .unsupportedUniform

/-- `GLProgram.applyUniforms` from src/types.ts, with its running
`textureUnit` counter made explicit: uniforms are visited in declaration
order; a texture value is bound to the current unit (`value.bind(unit)` =
`activeTexture` + `bindTexture`), the unit index is written as an integer
uniform, and the counter advances; any other value is written via
`writeUniform` without touching the counter. -/
def applyUniformsAux {Props : Type} (props : Props) :
    ℕ → List (GLProgramUniform Props) → Except GLError (List GLUniformCall)
  | _, [] => .ok []
  | textureUnit, u :: rest =>
      match u.value props with
      | .texture t => do
          let more ← applyUniformsAux props (textureUnit + 1) rest
          .ok ([.activeTexture textureUnit, .bindTexture t.handle,
                .uniform1i u.location textureUnit] ++ more)
      | v => do
          let calls ← writeUniform u.location v none
          let more ← applyUniformsAux props textureUnit rest
          .ok (calls ++ more)

/-- `applyUniforms(props)`: the counter starts at 0. -/
def applyUniforms {Props : Type} (props : Props)
    (uniforms : List (GLProgramUniform Props)) :
    Except GLError (List GLUniformCall) :=
  applyUniformsAux props 0 uniforms

/-- Whether a uniform resolves to a texture value under the given props. -/
def isTextureUniform {Props : Type} (props : Props)
    (u : GLProgramUniform Props) : Bool :=
  match u.value props with
  | .texture _ => true
  | _ => false

/-- Specification-side restatement of the claim's wording: each
texture-valued uniform is bound to the unit equal to the number of
texture-valued uniforms declared before it (`seen` is the prefix of
already-processed declarations), starting at 0; the unit index is written
as an integer uniform; non-texture uniforms are written without consuming
a unit. -/
def specApplyUniformsFrom {Props : Type} (props : Props)
    (seen : List (GLProgramUniform Props)) :
    List (GLProgramUniform Props) → Except GLError (List GLUniformCall)
  | [] => .ok []
  | u :: rest =>
      match u.value props with
      | .texture t => do
          let unit := seen.countP (isTextureUniform props)
          let more ← specApplyUniformsFrom props (seen ++ [u]) rest
          .ok ([.activeTexture unit, .bindTexture t.handle,
                .uniform1i u.location unit] ++ more)
      | v => do
          let calls ← writeUniform u.location v none
          let more ← specApplyUniformsFrom props (seen ++ [u]) rest
          .ok (calls ++ more)

/-- Specification-side `applyUniforms`: no declarations processed yet. -/
def specApplyUniforms {Props : Type} (props : Props)
    (uniforms : List (GLProgramUniform Props)) :
    Except GLError (List GLUniformCall) :=
  specApplyUniformsFrom props [] uniforms

/-- A two-texture, one-scalar uniform list used to exercise the unit
assignment concretely (locations 3, 7, 5; texture handles 0 and 1). -/
def demoUniforms : List (GLProgramUniform Unit) :=
  [⟨"tex0", 3, fun _ => .texture viewTex⟩,
   ⟨"opacity", 7, fun _ => .num (1/2)⟩,
   ⟨"tex1", 5, fun _ => .texture nullTex⟩]
/- The COLOR program (src/programs.ts) and fixed-function blending    -/
/- ----------------------------------------------------------------- -/

/-- `GLBlendConfig` keys of src/types.ts `glMap.blendFactor`. -/
inductive GLBlendFactor where
  | zero
  | one
  | srcColor
  | oneMinusSrcColor
  | dstColor
  | oneMinusDstColor
deriving DecidableEq, Repr

/-- `glMap.blendEquation` keys. -/
inductive GLBlendEquation where
  | add
  | subtract
  | reverseSubtract
deriving DecidableEq, Repr

/-- The blend descriptor of a program definition. -/
structure GLBlendConfig where
  enabled : Bool
  srcFactor : GLBlendFactor
  dstFactor : GLBlendFactor
  equation : GLBlendEquation
deriving DecidableEq, Repr

/-- The blend state of the `COLOR` program in src/programs.ts:
`{enabled: true, srcFactor: "srcColor", dstFactor: "oneMinusSrcColor",
equation: "add"}`. -/
def COLOR_blend : GLBlendConfig :=
  ⟨true, .srcColor, .oneMinusSrcColor, .add⟩

/-- The `COLOR` fragment shader: `gl_FragColor = color;` — the uniform
color itself; no source texture is sampled (the program declares no
texture uniform). -/
def COLOR_frag (color : Vec4) : Vec4 := color

/-- Fixed-function blend factor, componentwise, as configured by
`blendFunc` (for the factors `glMap` can produce). -/
def blendCoeff : GLBlendFactor → Vec4 → Vec4 → Vec4
  | .zero, _, _ => ⟨0, 0, 0, 0⟩
  | .one, _, _ => ⟨1, 1, 1, 1⟩
  | .srcColor, s, _ => s
  | .oneMinusSrcColor, s, _ => ⟨1 - s.x, 1 - s.y, 1 - s.z, 1 - s.w⟩
  | .dstColor, _, d => d
  | .oneMinusDstColor, _, d => ⟨1 - d.x, 1 - d.y, 1 - d.z, 1 - d.w⟩

/-- Fixed-function blend equation (`blendEquation`). -/
def blendCombine : GLBlendEquation → Vec4 → Vec4 → Vec4
  | .add, a, b => vadd a b
  | .subtract, a, b => ⟨a.x - b.x, a.y - b.y, a.z - b.z, a.w - b.w⟩
  | .reverseSubtract, a, b => ⟨b.x - a.x, b.y - a.y, b.z - a.z, b.w - a.w⟩

/-- Componentwise clamp to [0,1] (the stored value in an 8-bit normalized
color attachment). -/
def clampVec01 (v : Vec4) : Vec4 :=
  ⟨clamp01 v.x, clamp01 v.y, clamp01 v.z, clamp01 v.w⟩

/-- One fragment's blended result under a program's blend config
(`applyBlend` + the GL blending stage): with blending enabled,
`equation(src · srcFactor, dst · dstFactor)` clamped to the attachment
range; with blending disabled the fragment color overwrites. -/
def blendPixel (cfg : GLBlendConfig) (srcPix dstPix : Vec4) : Vec4 :=
  if cfg.enabled then
    clampVec01 (blendCombine cfg.equation
      (vmul srcPix (blendCoeff cfg.srcFactor srcPix dstPix))
      (vmul dstPix (blendCoeff cfg.dstFactor srcPix dstPix)))
  else srcPix

/-- The pixel the `Color(c)` operation leaves in the target where the
destination held `dstPix`: the COLOR fragment output blended with the
COLOR program's configured blend state. -/
def colorOutputPixel (c dstPix : Vec4) : Vec4 :=
  blendPixel COLOR_blend (COLOR_frag c) dstPix
/- Linear conveniences: utils/vector.ts toVec4 and SharpGPU.linear    -/
/- ----------------------------------------------------------------- -/

/-- `LinearInput = number | Vec3 | Vec4` (the argument type of the
SharpGPU linear conveniences). -/
inductive LinearInput where
  | num (x : ℚ)
  | vec3 (x y z : ℚ)
  | vec4 (x y z w : ℚ)
deriving DecidableEq, Repr

/-- `toVec4` from src/types.ts / utils/vector.ts: an array is destructured
as `[x,y,z,w]` with each missing component replaced by `fallback` (the
fourth by `fallbackAlpha`); a number is broadcast to the RGB components
with `fallbackAlpha` as alpha; `undefined` yields the fallbacks. -/
def toVec4 (value : Option LinearInput) (fallback fallbackAlpha : ℚ) : Vec4 :=
  match value with
  | some (.vec3 x y z) => ⟨x, y, z, fallbackAlpha⟩
  | some (.vec4 x y z w) => ⟨x, y, z, w⟩
  | some (.num v) => ⟨v, v, v, fallbackAlpha⟩
  | none => ⟨fallback, fallback, fallback, fallbackAlpha⟩

/-- `SharpGPU.linear(multiply, add)`: pushes a `LinearOperation` built with
`multiply: toVec4(multiply, 1, 1)` and `add: toVec4(add, 0, 0)` onto the
operation list. -/
def SharpGPU.linear (ops : List POperation) (multiply add : LinearInput) :
    List POperation :=
  ops ++ [.linear (toVec4 (some multiply) 1 1) (toVec4 (some add) 0 0)]

/-- `SharpGPU.multiply(multiply)` = `this.linear(multiply, 0)`. -/
def SharpGPU.multiply (ops : List POperation) (multiply : LinearInput) :
    List POperation :=
  SharpGPU.linear ops multiply (.num 0)

/-- `SharpGPU.add(add)` = `this.linear(1, add)`. -/
def SharpGPU.add (ops : List POperation) (add : LinearInput) :
    List POperation :=
  SharpGPU.linear ops (.num 1) add

/-- The Linear fragment shader of src/operations/linear.ts:
`result = color * multiply + add`, then RGB and alpha are each clamped to
[0,1]. -/
def linearPixel (multiply add color : Vec4) : Vec4 :=
  clampVec01 (vadd (vmul color multiply) add)
/- computeSize: src/utils/size.ts                                     -/
/- ----------------------------------------------------------------- -/

/-- `ResizeParams` from src/utils/size.ts (both axes optional). -/
structure ResizeParams where
  width : Option ℚ := none
  height : Option ℚ := none
deriving DecidableEq, Repr

/-- JavaScript truthiness of an optional number: `undefined` and `0` are
falsy, any other (rational) number is truthy (NaN is outside the model). -/
def jsTruthy : Option ℚ → Bool
  | none => false
  | some x => x != 0

/-- `computeSize` from src/utils/size.ts: both axes truthy → take them as
given; one axis truthy → derive the other from the source aspect
(`aspect = srcSize.width / srcSize.height`) with no rounding; neither →
return the source size.  The function never throws. -/
def computeSize (srcSize : Size) (params : ResizeParams) : Size :=
  if jsTruthy params.width && jsTruthy params.height then
    ⟨params.width.getD 0, params.height.getD 0⟩
  else
    let aspect := srcSize.width / srcSize.height
    if jsTruthy params.width then
      ⟨params.width.getD 0, params.width.getD 0 / aspect⟩
    else if jsTruthy params.height then
      ⟨params.height.getD 0 * aspect, params.height.getD 0⟩
    else
      srcSize
/-- Any `texImage2D` overload counts as an upload, whichever path is taken. -/
theorem isUpload_uploadCall (f : GLenum) (w h : ℚ) (ty : GLenum) (d : GLTextureSource) :
    (uploadCall f w h ty d).isUpload = true := by
  cases d <;> rfl

/- ----------------------------------------------------------------- -/
/-- Do-notation reduction helper: bind on a success value. -/
theorem except_ok_bind {ε α β : Type} (a : α) (f : α → Except ε β) :
    (Except.ok a : Except ε α) >>= f = f a := rfl
/- Claims C1, C2, C6, C7                                              -/
/- ----------------------------------------------------------------- -/

/-- C1: the claim says `Texture.resize(w,h)` drops the pixel data and
re-uploads no payload.  The code passes `data: null` to `update`, but
`params.data ?? this.data` swallows the explicit null, so the old payload
is retained on the texture and re-uploaded by the `texImage2D` call: at the
concrete failing input (a 1×1 texture holding the byte view `[7]`,
resized to 2×2) the resulting state still holds `.view [7]` and the trace's
upload carries that payload instead of a null one. -/
theorem C1_resize_retains_payload :
    viewTex.resize 2 2 =
      .ok ({ viewTex with width := 2, height := 2 },
        [.bindTexture 0,
         .texParameteri .TEXTURE_MIN_FILTER .LINEAR,
         .texParameteri .TEXTURE_MAG_FILTER .LINEAR,
         .texParameteri .TEXTURE_WRAP_S .CLAMP_TO_EDGE,
         .texParameteri .TEXTURE_WRAP_T .CLAMP_TO_EDGE,
         .pixelStoreiFlipY 0,
         .texImage2DData .RGBA 2 2 .RGBA .UNSIGNED_BYTE (.view [7]),
         .pixelStoreiFlipYPrevious,
         .bindTexturePrevious])
    ∧ ({ viewTex with width := 2, height := 2 }).data = .view [7]
    ∧ GLTextureSource.view [7] ≠ GLTextureSource.null := by
  refine ⟨rfl, rfl, fun h => GLTextureSource.noConfusion h⟩

/-- C2 counterexample: `nullTex` is already 2×2, so `nullTex.resize 2 2` is
a resize to the current dimensions — the claim says it is a no-op issuing
no upload, but it reallocates (one upload), and two identical calls
perform the reallocation twice, not at most once. -/
theorem C2_resize_same_size_uploads :
    stateAfter (nullTex.resize 2 2) = some nullTex
    ∧ uploadsIssued (nullTex.resize 2 2) = 1
    ∧ uploadsIssued (nullTex.resize 2 2) + uploadsIssued (nullTex.resize 2 2) = 2 := by
  refine ⟨rfl, rfl, rfl⟩

/-- C2 (amended): `resize(w,h)` with positive arguments always performs
exactly one storage upload — including when `(w,h)` are the current
dimensions — and is idempotent only in its resulting state: the second
identical call returns exactly the same state and trace (so it re-issues
the upload instead of being a no-op).  Likewise for
`Framebuffer.resize`, which delegates to the attached texture. -/
theorem C2_resize_idempotent_state_but_reuploads
    (t : GLTexture) (fb : GLFramebuffer) (w h : ℚ) (hw : 0 < w) (hh : 0 < h) :
    stateAfter (t.resize w h) = some { t with width := w, height := h }
    ∧ uploadsIssued (t.resize w h) = 1
    ∧ ({ t with width := w, height := h } : GLTexture).resize w h = t.resize w h
    ∧ stateAfter (fb.resize ⟨w, h⟩) =
        some { fb with texture := { fb.texture with width := w, height := h } }
    ∧ uploadsIssued (fb.resize ⟨w, h⟩) = 1
    ∧ ({ fb with texture := { fb.texture with width := w, height := h } }
        : GLFramebuffer).resize ⟨w, h⟩ = fb.resize ⟨w, h⟩ := by
  have hcond : ¬(w ≤ 0 ∨ h ≤ 0) := by push_neg; exact ⟨hw, hh⟩
  refine ⟨?_, ?_, rfl, ?_, ?_, rfl⟩
  · simp [GLTexture.resize, GLTexture.update, if_neg hcond, stateAfter,
      Except.toOption, jsOrElseData]
  · obtain ⟨hd, tw, th, fm, ty, ws, wt, mnf, mgf, fy, da⟩ := t
    cases da <;>
      simp [GLTexture.resize, GLTexture.update, if_neg hcond, uploadsIssued,
        countUploads, jsOrElseData, uploadCall, GLCall.isUpload]
  · simp [GLFramebuffer.resize, GLTexture.resize, GLTexture.update, if_neg hcond,
      stateAfter, Except.toOption, jsOrElseData]
  · obtain ⟨fh, ft, fown⟩ := fb
    obtain ⟨hd, tw, th, fm, ty, ws, wt, mnf, mgf, fy, da⟩ := ft
    cases da <;>
      simp [GLFramebuffer.resize, GLTexture.resize, GLTexture.update, if_neg hcond,
        uploadsIssued, countUploads, jsOrElseData, uploadCall, GLCall.isUpload]

/-- C2 witness: the amended statement at the concrete inputs `viewTex`,
`nullFb`, `w = h = 3`. -/
theorem C2_resize_idempotent_state_but_reuploads_w :
    uploadsIssued (viewTex.resize 3 3) = 1
    ∧ uploadsIssued (nullFb.resize ⟨3, 3⟩) = 1 :=
  ⟨(C2_resize_idempotent_state_but_reuploads viewTex nullFb 3 3 (by norm_num)
      (by norm_num)).2.1,
   (C2_resize_idempotent_state_but_reuploads viewTex nullFb 3 3 (by norm_num)
      (by norm_num)).2.2.2.2.1⟩

/-- C6: `resize(w,h)` with non-positive `w` or `h` throws
`invalidDimension` before touching any state or issuing any GL call: the
result is the bare error, the texture value is untouched (the model is
pure, and the source throws as its first statement, before the
`this.width`/`this.height` writes and before `update`). -/
theorem C6_resize_nonpositive_throws (t : GLTexture) (w h : ℚ)
    (hwh : w ≤ 0 ∨ h ≤ 0) :
    t.resize w h = .error .invalidDimension := by
  simp only [GLTexture.resize, if_pos hwh]

/-- C6 witness: a 0-width resize of the concrete texture throws. -/
theorem C6_resize_nonpositive_throws_w :
    viewTex.resize 0 5 = .error .invalidDimension :=
  C6_resize_nonpositive_throws viewTex 0 5 (Or.inl (by norm_num))

/-- C7: `Framebuffer.use(fn)` binds the framebuffer and sets the viewport
to the attachment size for the callback, restores the prior framebuffer
binding and viewport on every exit path (the restore happens whether or not
the callback threw; its thrown error and its issued work are propagated
untouched), and nests correctly: a framebuffer used inside another's `use`
returns to a state bound to the outer framebuffer, not the default
surface. -/
theorem C7_framebuffer_use_scoped (fb inner : GLFramebuffer) (st : GLState)
    (fn g : GLState → GLState × Option GLError) :
    (fb.use st fn).1.framebufferBinding = st.framebufferBinding
    ∧ (fb.use st fn).1.viewport = st.viewport
    ∧ (fb.use st fn).2 = (fn (fb.enter st)).2
    ∧ (fb.use st fn).1.issued = (fn (fb.enter st)).1.issued
    ∧ (fb.enter st).framebufferBinding = some fb.handle
    ∧ (fb.enter st).viewport = ⟨0, 0, fb.texture.width, fb.texture.height⟩
    ∧ (inner.use (fb.enter st) g).1.framebufferBinding = some fb.handle := by
  refine ⟨rfl, rfl, rfl, rfl, rfl, rfl, rfl⟩

/- ----------------------------------------------------------------- -/
/-- C3 counterexample: running the pipeline with an empty operation list
over a 2×2 canvas presents the freshly allocated blank buffer — for the
concrete source texture `srcTex` (content `source 0`) the presented content
differs from the unmodified source, which is never read at all. -/
theorem C3_empty_pipeline_not_source :
    SharpGPU.render [] 2 2 = .ok (⟨2, 2, .blank⟩, [.copyDraw .blank])
    ∧ srcTex.content ≠ PContent.blank := by
  exact ⟨rfl, fun h => PContent.noConfusion h⟩

/-- C3 (amended): with an empty operation list the final blit presents the
initial blank ping-pong buffer at canvas size — no operation ever reads the
source texture, so the output is blank, not the source.  The unmodified
source is presented exactly when the list explicitly copies it: with
`[copy s]` the presented content is `s.content`. -/
theorem C3_empty_pipeline_blits_blank (cw ch : ℚ) (s : PTexture)
    (hw : 0 < cw) (hh : 0 < ch) :
    SharpGPU.render [] cw ch = .ok (⟨cw, ch, .blank⟩, [.copyDraw .blank])
    ∧ SharpGPU.render [.copy s] cw ch =
        .ok (⟨cw, ch, s.content⟩, [.copyDraw s.content, .copyDraw s.content]) := by
  have hcond : ¬(cw ≤ 0 ∨ ch ≤ 0) := by push_neg; exact ⟨hw, hh⟩
  constructor
  · rfl
  · simp [SharpGPU.render, renderLoop, POperation.run, PFramebuffer.resizeStorage,
      if_neg hcond, except_ok_bind]

/-- C3 witness: the amended statement at a 2×2 canvas and the concrete
source `srcTex`. -/
theorem C3_empty_pipeline_blits_blank_w :
    SharpGPU.render [] 2 2 = .ok (⟨2, 2, .blank⟩, [.copyDraw .blank])
    ∧ SharpGPU.render [.copy srcTex] 2 2 =
        .ok (⟨2, 2, srcTex.content⟩,
          [.copyDraw srcTex.content, .copyDraw srcTex.content]) :=
  C3_empty_pipeline_blits_blank 2 2 srcTex (by norm_num) (by norm_num)

/-- C5 counterexample: appending a radius-0 blur to `[copy srcTex]` changes
the presented image from the source content to blank — the blur pass itself
draws nothing (the trace gains no `blurDraw`), but the pipeline still swaps
the two buffers, so the output is the other, never-written buffer rather
than being bit-identical to the input. -/
theorem C5_blur_zero_swap_blanks :
    SharpGPU.render [.copy srcTex, .blur 0 1 0] 2 2 =
      .ok (⟨2, 2, .blank⟩, [.copyDraw (.source 0), .copyDraw .blank])
    ∧ SharpGPU.render [.copy srcTex] 2 2 =
      .ok (⟨2, 2, .source 0⟩, [.copyDraw (.source 0), .copyDraw (.source 0)])
    ∧ PContent.blank ≠ .source 0 := by
  refine ⟨rfl, rfl, fun h => PContent.noConfusion h⟩

/-- C5 (amended): `BlurOperation.run` with radius exactly 0 returns before
issuing any GPU command, leaving the target untouched (first conjunct, for
every source and target); but inside the pipeline the buffer swap is
unconditional, so after `[copy s, blur 0]` the presented image is the
other (blank) ping-pong buffer, not the input image — end-to-end
bit-identity holds only if the caller filters the no-op out, as
`SharpGPU.blur` does with its `radius > 0` guard. -/
theorem C5_blur_zero_no_draw_but_swap (d1 d2 : ℚ) (srcOpt : Option PTexture)
    (target : PFramebuffer) (s : PTexture) (cw ch : ℚ)
    (hw : 0 < cw) (hh : 0 < ch) :
    (POperation.blur 0 d1 d2).run srcOpt target = .ok (target, [])
    ∧ SharpGPU.render [.copy s, .blur 0 d1 d2] cw ch =
        .ok (⟨cw, ch, .blank⟩, [.copyDraw s.content, .copyDraw .blank]) := by
  have hcond : ¬(cw ≤ 0 ∨ ch ≤ 0) := by push_neg; exact ⟨hw, hh⟩
  constructor
  · simp [POperation.run]
  · simp [SharpGPU.render, renderLoop, POperation.run, PFramebuffer.resizeStorage,
      if_neg hcond, except_ok_bind]

/-- C5 witness: the amended statement at concrete inputs (direction (1,0),
source `srcTex`, target the blank 2×2 buffer, 2×2 canvas). -/
theorem C5_blur_zero_no_draw_but_swap_w :
    (POperation.blur 0 1 0).run (some srcTex) ⟨⟨2, 2, .blank⟩⟩ =
      .ok (⟨⟨2, 2, .blank⟩⟩, [])
    ∧ SharpGPU.render [.copy srcTex, .blur 0 1 0] 2 2 =
        .ok (⟨2, 2, .blank⟩, [.copyDraw srcTex.content, .copyDraw .blank]) :=
  C5_blur_zero_no_draw_but_swap 1 0 (some srcTex) ⟨⟨2, 2, .blank⟩⟩ srcTex 2 2
    (by norm_num) (by norm_num)

/- ----------------------------------------------------------------- -/
/-- The implementation counter agrees with the claim-side prefix count. -/
theorem applyUniformsAux_eq_spec {Props : Type} (props : Props)
    (us : List (GLProgramUniform Props)) :
    ∀ seen : List (GLProgramUniform Props),
      applyUniformsAux props (seen.countP (isTextureUniform props)) us =
        specApplyUniformsFrom props seen us := by
  induction us with
  | nil => intro seen; rfl
  | cons u rest ih =>
      intro seen
      cases hv : u.value props with
      | texture t =>
          have hcount : (seen ++ [u]).countP (isTextureUniform props) =
              seen.countP (isTextureUniform props) + 1 := by
            simp [List.countP_append, List.countP_cons, isTextureUniform, hv]
          simp only [applyUniformsAux, specApplyUniformsFrom, hv]
          rw [← ih (seen ++ [u]), hcount]
      | num x =>
          have hcount : (seen ++ [u]).countP (isTextureUniform props) =
              seen.countP (isTextureUniform props) := by
            simp [List.countP_append, List.countP_cons, isTextureUniform, hv]
          simp only [applyUniformsAux, specApplyUniformsFrom, hv]
          rw [← ih (seen ++ [u]), hcount]
      | boolean b =>
          have hcount : (seen ++ [u]).countP (isTextureUniform props) =
              seen.countP (isTextureUniform props) := by
            simp [List.countP_append, List.countP_cons, isTextureUniform, hv]
          simp only [applyUniformsAux, specApplyUniformsFrom, hv]
          rw [← ih (seen ++ [u]), hcount]
      | floats xs =>
          have hcount : (seen ++ [u]).countP (isTextureUniform props) =
              seen.countP (isTextureUniform props) := by
            simp [List.countP_append, List.countP_cons, isTextureUniform, hv]
          simp only [applyUniformsAux, specApplyUniformsFrom, hv]
          rw [← ih (seen ++ [u]), hcount]
      | ints xs =>
          have hcount : (seen ++ [u]).countP (isTextureUniform props) =
              seen.countP (isTextureUniform props) := by
            simp [List.countP_append, List.countP_cons, isTextureUniform, hv]
          simp only [applyUniformsAux, specApplyUniformsFrom, hv]
          rw [← ih (seen ++ [u]), hcount]

/-- C8: for every props value, `applyUniforms` equals its
specification-side restatement — texture units are assigned in
uniform-declaration order starting at 0, each texture-valued uniform gets
the unit equal to the number of texture-valued uniforms declared before it
(exactly one unit each) and receives that unit index as an integer
uniform, while non-texture uniforms consume no unit; the concrete
three-uniform list (texture, scalar, texture) shows units 0 and 1 assigned
in order with the scalar consuming none. -/
theorem C8_applyUniforms_units_in_declaration_order {Props : Type}
    (props : Props) (uniforms : List (GLProgramUniform Props)) :
    applyUniforms props uniforms = specApplyUniforms props uniforms
    ∧ applyUniforms () demoUniforms =
        .ok [.activeTexture 0, .bindTexture 0, .uniform1i 3 0,
             .uniform1f 7 (1/2),
             .activeTexture 1, .bindTexture 1, .uniform1i 5 1] := by
  constructor
  · have h := applyUniformsAux_eq_spec props uniforms []
    simpa [applyUniforms, specApplyUniforms] using h
  · rfl

/- ----------------------------------------------------------------- -/
/-- clamp01 is the identity on [0,1]. -/
theorem clamp01_of_mem (a : ℚ) (h0 : 0 ≤ a) (h1 : a ≤ 1) : clamp01 a = a := by
  unfold clamp01
  rw [max_eq_left h0, min_eq_left h1]

/-- C4 counterexample: `Color([1/2,1/2,1/2,1])` over a blank (zero)
destination produces `[1/4,1/4,1/4,1]`, not the solid color `c` — the
configured src-color / one-minus-src-color blend squares each channel
rather than overwriting. -/
theorem C4_color_half_grey_not_overwritten :
    colorOutputPixel ⟨1/2, 1/2, 1/2, 1⟩ ⟨0, 0, 0, 0⟩ = ⟨1/4, 1/4, 1/4, 1⟩
    ∧ colorOutputPixel ⟨1/2, 1/2, 1/2, 1⟩ ⟨0, 0, 0, 0⟩ ≠ ⟨1/2, 1/2, 1/2, 1⟩ := by
  have h1 : colorOutputPixel ⟨1/2, 1/2, 1/2, 1⟩ ⟨0, 0, 0, 0⟩ = ⟨1/4, 1/4, 1/4, 1⟩ := by
    norm_num [colorOutputPixel, blendPixel, COLOR_blend, COLOR_frag, blendCoeff,
      blendCombine, vmul, vadd, clampVec01, clamp01]
  refine ⟨h1, ?_⟩
  rw [h1]
  intro h
  have hx := congrArg Vec4.x h
  norm_num at hx

/-- C4 (amended): the Color(c) operation ignores the source entirely and
blends its constant color with the destination via src-color /
one-minus-src-color with equation add, i.e. out = c·c + d·(1−c)
componentwise; over the pipeline's blank (zero) destination the output is
c squared componentwise, which equals c exactly when every channel of c is
0 or 1 — so the concrete green scenario `[0,1,0,1]` is a full overwrite,
but colors with fractional channels are not reproduced. -/
theorem C4_color_blend_over_blank (c : Vec4)
    (h0x : 0 ≤ c.x) (h1x : c.x ≤ 1) (h0y : 0 ≤ c.y) (h1y : c.y ≤ 1)
    (h0z : 0 ≤ c.z) (h1z : c.z ≤ 1) (h0w : 0 ≤ c.w) (h1w : c.w ≤ 1) :
    colorOutputPixel c ⟨0, 0, 0, 0⟩ = vmul c c
    ∧ ((c.x = 0 ∨ c.x = 1) → (c.y = 0 ∨ c.y = 1) → (c.z = 0 ∨ c.z = 1) →
        (c.w = 0 ∨ c.w = 1) → colorOutputPixel c ⟨0, 0, 0, 0⟩ = c) := by
  have key : colorOutputPixel c ⟨0, 0, 0, 0⟩ = vmul c c := by
    simp only [colorOutputPixel, blendPixel, COLOR_blend, COLOR_frag, blendCoeff,
      blendCombine, vmul, vadd, clampVec01, if_pos]
    simp only [zero_mul, add_zero]
    have e1 : clamp01 (c.x * c.x) = c.x * c.x :=
      clamp01_of_mem _ (mul_nonneg h0x h0x) (mul_le_one₀ h1x h0x h1x)
    have e2 : clamp01 (c.y * c.y) = c.y * c.y :=
      clamp01_of_mem _ (mul_nonneg h0y h0y) (mul_le_one₀ h1y h0y h1y)
    have e3 : clamp01 (c.z * c.z) = c.z * c.z :=
      clamp01_of_mem _ (mul_nonneg h0z h0z) (mul_le_one₀ h1z h0z h1z)
    have e4 : clamp01 (c.w * c.w) = c.w * c.w :=
      clamp01_of_mem _ (mul_nonneg h0w h0w) (mul_le_one₀ h1w h0w h1w)
    rw [e1, e2, e3, e4]
  refine ⟨key, fun hx hy hz hw => ?_⟩
  rw [key]
  have sq : ∀ a : ℚ, a = 0 ∨ a = 1 → a * a = a := by
    rintro a (rfl | rfl) <;> norm_num
  show Vec4.mk (c.x * c.x) (c.y * c.y) (c.z * c.z) (c.w * c.w) = c
  rw [sq c.x hx, sq c.y hy, sq c.z hz, sq c.w hw]

/-- C4 witness: the amended statement at the green scenario `[0,1,0,1]` —
full overwrite holds there. -/
theorem C4_color_blend_over_blank_w :
    colorOutputPixel ⟨0, 1, 0, 1⟩ ⟨0, 0, 0, 0⟩ = ⟨0, 1, 0, 1⟩ :=
  (C4_color_blend_over_blank ⟨0, 1, 0, 1⟩ (by norm_num) (by norm_num)
      (by norm_num) (by norm_num) (by norm_num) (by norm_num) (by norm_num)
      (by norm_num)).2
    (Or.inl rfl) (Or.inr rfl) (Or.inl rfl) (Or.inr rfl)

/- ----------------------------------------------------------------- -/
/-- C9: for every scalar x, `SharpGPU.multiply(x)` enqueues a Linear
operation with multiply = [x,x,x,1], add = [0,0,0,0], and `SharpGPU.add(x)`
enqueues one with multiply = [1,1,1,1], add = [x,x,x,0] — the scalar is
broadcast to RGB only, never to alpha — and consequently the Linear shader
leaves the alpha channel of any in-range color unchanged under either
operation. -/
theorem C9_scalar_linear_preserves_alpha (x : ℚ) (ops : List POperation)
    (color : Vec4) (h0 : 0 ≤ color.w) (h1 : color.w ≤ 1) :
    SharpGPU.multiply ops (.num x) =
      ops ++ [.linear ⟨x, x, x, 1⟩ ⟨0, 0, 0, 0⟩]
    ∧ SharpGPU.add ops (.num x) =
        ops ++ [.linear ⟨1, 1, 1, 1⟩ ⟨x, x, x, 0⟩]
    ∧ (linearPixel ⟨x, x, x, 1⟩ ⟨0, 0, 0, 0⟩ color).w = color.w
    ∧ (linearPixel ⟨1, 1, 1, 1⟩ ⟨x, x, x, 0⟩ color).w = color.w := by
  have halpha : clamp01 (color.w * 1 + 0) = color.w := by
    rw [mul_one, add_zero]; exact clamp01_of_mem _ h0 h1
  refine ⟨rfl, rfl, ?_, ?_⟩
  · show clamp01 (color.w * 1 + 0) = color.w
    exact halpha
  · show clamp01 (color.w * 1 + 0) = color.w
    exact halpha

/-- C9 witness: the statement at x = 2, the empty operation list, and a
color with alpha 1/2. -/
theorem C9_scalar_linear_preserves_alpha_w :
    SharpGPU.multiply [] (.num 2) = [.linear ⟨2, 2, 2, 1⟩ ⟨0, 0, 0, 0⟩]
    ∧ SharpGPU.add [] (.num 2) = [.linear ⟨1, 1, 1, 1⟩ ⟨2, 2, 2, 0⟩]
    ∧ (linearPixel ⟨2, 2, 2, 1⟩ ⟨0, 0, 0, 0⟩ ⟨1, 0, 0, 1/2⟩).w = (1/2 : ℚ)
    ∧ (linearPixel ⟨1, 1, 1, 1⟩ ⟨2, 2, 2, 0⟩ ⟨1, 0, 0, 1/2⟩).w = (1/2 : ℚ) :=
  C9_scalar_linear_preserves_alpha 2 [] ⟨1, 0, 0, 1/2⟩ (by norm_num) (by norm_num)

/- ----------------------------------------------------------------- -/
/-- C10: `computeSize` treats a zero width or height as absent rather than
invalid — `{width: 0}` (either alone or with a zero height) returns the
source size unchanged and no error is raised (the function is total) —
and when exactly one axis is given, the other is `width / aspect` resp.
`height * aspect` exactly, with no rounding: at source 3×2 and width 4 the
computed height is 8/3, not an integer. -/
theorem C10_computeSize_zero_absent_no_rounding (src : Size) (w h : ℚ)
    (hw : w ≠ 0) (hh : h ≠ 0) :
    computeSize src ⟨some 0, none⟩ = src
    ∧ computeSize src ⟨none, some 0⟩ = src
    ∧ computeSize src ⟨some 0, some 0⟩ = src
    ∧ computeSize src ⟨some w, none⟩ = ⟨w, w / (src.width / src.height)⟩
    ∧ computeSize src ⟨none, some h⟩ = ⟨h * (src.width / src.height), h⟩
    ∧ (computeSize ⟨3, 2⟩ ⟨some 4, none⟩).height = 8 / 3
    ∧ (computeSize ⟨3, 2⟩ ⟨some 4, none⟩).height.den ≠ 1 := by
  refine ⟨rfl, rfl, rfl, ?_, ?_, by norm_num [computeSize, jsTruthy], ?_⟩
  · simp [computeSize, jsTruthy, hw]
  · simp [computeSize, jsTruthy, hh]
  · have hv : (computeSize ⟨3, 2⟩ ⟨some 4, none⟩).height = 8 / 3 := by
      norm_num [computeSize, jsTruthy]
    rw [hv]
    norm_num

/-- C10 witness: the statement at source 3×2, width 4, height 5. -/
theorem C10_computeSize_zero_absent_no_rounding_w :
    computeSize ⟨3, 2⟩ ⟨some 0, none⟩ = ⟨3, 2⟩
    ∧ computeSize ⟨3, 2⟩ ⟨some 4, none⟩ = ⟨4, 4 / ((3 : ℚ) / 2)⟩
    ∧ (computeSize ⟨3, 2⟩ ⟨some 4, none⟩).height.den ≠ 1 :=
  ⟨(C10_computeSize_zero_absent_no_rounding ⟨3, 2⟩ 4 5 (by norm_num)
      (by norm_num)).1,
   (C10_computeSize_zero_absent_no_rounding ⟨3, 2⟩ 4 5 (by norm_num)
      (by norm_num)).2.2.2.1,
   (C10_computeSize_zero_absent_no_rounding ⟨3, 2⟩ 4 5 (by norm_num)
      (by norm_num)).2.2.2.2.2.2⟩
